import Mathlib

/-!
Verification of the comtrya `FilePermissions` atom (`src/atoms/file/chmod.rs`)
against its specification.

The atom holds a target `path` and a desired numeric `mode`.  On unix, `plan`
reads the path's metadata and compares `Permissions::from_mode(0o100000 + mode)
.mode()` with `metadata.permissions().mode()`; `execute` calls
`set_permissions(path, Permissions::from_mode(mode))`.  On non-unix platforms
all operations are inert.  We embed the filesystem as a map from OS paths to
optional metadata (a failing metadata query is `none`) and the operations as
explicit state-passing functions.
-/

set_option autoImplicit false

namespace Comtrya

/-- An OS path: either valid UTF-8 text, or raw bytes that do not decode as
UTF-8.  `toStr` below models Rust's `Path::to_str`, which returns `None` on a
non-UTF-8 path. -/
inductive OsPath where
  | utf8 (s : String)
  | nonUtf8 (bytes : List Nat)
deriving DecidableEq

/-- `Path::to_str` / `OsStr::to_str`: `some` text exactly when the path is
valid UTF-8. -/
def OsPath.toStr : OsPath → Option String
  | .utf8 s => some s
  | .nonUtf8 _ => none

/-- On-disk metadata for one path: the full `st_mode` word, file-type bits
plus permission bits, as returned by `metadata.permissions().mode()`. -/
structure FileMeta where
  mode : Nat
deriving DecidableEq

/-- The filesystem visible to the atom: `fs p = none` models a failing
metadata query for `p` (missing path, permission denied, I/O error). -/
def FS : Type := OsPath → Option FileMeta

/-- Point update of the filesystem at one path. -/
def FS.update (fs : FS) (p : OsPath) (m : FileMeta) : FS :=
  fun q => if q = p then some m else fs q

/-- I/O failures surfaced by the embedding. -/
inductive IOErr where
  | notFound
  | revertUnsupported
deriving DecidableEq

/-- `pub struct FilePermissions { path: PathBuf, mode: u32 }`. -/
structure FilePermissions where
  path : OsPath
  mode : Nat

/-- On unix, `std::fs::Permissions::from_mode(x).mode()` returns the stored
mode unchanged; we fold the `u32` reduction of the argument into the
round-trip. -/
def fromModeMode (x : Nat) : Nat := x % 2 ^ 32

/-- `FilePermissions::plan` (unix), state-passing: read metadata for `path`;
on failure the error branch logs a diagnostic whose message evaluates
`self.path.as_os_str().to_str().unwrap()` — a panic when the path is not
valid UTF-8, modelled as `none` — and then returns `false`; on success it
returns whether `from_mode(0o100000 + mode).mode()` differs from the on-disk
mode.  `some (b, fs2)` is a normal return of `b` with resulting state `fs2`. -/
def FilePermissions.plan (a : FilePermissions) (fs : FS) : Option (Bool × FS) :=
  match fs a.path with
  | none =>
      match a.path.toStr with
      | none => none
      | some _ => some (false, fs)
  | some metadata => some (decide (fromModeMode (0o100000 + a.mode) ≠ metadata.mode), fs)

/-- `plan` called `n + 1` times in sequence, each call running on the state the
previous call returned; a panic (`none`) aborts the whole chain. -/
def FilePermissions.planRepeat (a : FilePermissions) (fs : FS) : Nat → Option (Bool × FS)
  | 0 => a.plan fs
  | n + 1 =>
      match a.planRepeat fs n with
      | none => none
      | some r => a.plan r.2

/-- `std::fs::set_permissions(p, Permissions::from_mode(mode))`: fails when the
path cannot be reached; otherwise `chmod` keeps the on-disk file-type bits and
replaces the permission bits (the kernel ignores type bits in the argument).
`0o10000 = 4096`, so `m % 4096` is the permission-bits portion of `m` and
`m - m % 4096` its file-type portion. -/
def setPermissions (fs : FS) (p : OsPath) (mode : Nat) : Except IOErr FS :=
  match fs p with
  | none => .error .notFound
  | some metadata => .ok (fs.update p ⟨metadata.mode - metadata.mode % 4096 + mode % 4096⟩)

/-- `FilePermissions::execute` (unix): `set_permissions(path, from_mode(mode))?;
Ok(())` — any error from the call is propagated unchanged. -/
def FilePermissions.execute (a : FilePermissions) (fs : FS) : Except IOErr FS :=
  match setPermissions fs a.path a.mode with
  | .error e => .error e
  | .ok fsNew => .ok fsNew

/-- `impl Display for FilePermissions`: writes
`"The permissions on {path} need to be set to {mode}"` where the path is
`self.path.to_str().unwrap()`.  The `unwrap` panics on a non-UTF-8 path;
the panic is modelled as `none`. -/
def FilePermissions.display (a : FilePermissions) : Option String :=
  match a.path.toStr with
  | none => none
  | some s => some ("The permissions on " ++ s ++ " need to be set to " ++ toString a.mode)

/-- `plan` of the `#[cfg(not(unix))]` impl: always `false`, no filesystem
access. -/
def FilePermissions.planNotUnix (_ : FilePermissions) (fs : FS) : Bool × FS :=
  (false, fs)

/-- `execute` of the `#[cfg(not(unix))]` impl: always `Ok(())`, no filesystem
access. -/
def FilePermissions.executeNotUnix (_ : FilePermissions) (fs : FS) : Except IOErr FS :=
  .ok fs

/-- `revert` of the `#[cfg(not(unix))]` impl: always `Ok(())`, no filesystem
access. -/
def FilePermissions.revertNotUnix (_ : FilePermissions) (fs : FS) : Except IOErr FS :=
  .ok fs

/-- Modelled from the spec: the `Atom` trait (`super::super::Atom`) and hence
the `revert` the unix impl inherits are not among the sources; the unix impl
block defines no `revert` of its own and the atom stores no captured prior
mode.  Spec section 4.4: with no prior value captured, revert "must fail
closed (report an error) rather than silently doing nothing". -/
def FilePermissions.revertUnix (_ : FilePermissions) (_ : FS) : Except IOErr FS :=
  .error .revertUnsupported

/-- The comparison the spec's sentence describes for `plan`: only the
permission bits of the synthesized value `0o100000 + mode` against only the
permission bits of the on-disk mode, type bits stripped from both sides. -/
def planPermBitsOnly (a : FilePermissions) (metadata : FileMeta) : Bool :=
  decide ((0o100000 + a.mode) % 4096 ≠ metadata.mode % 4096)

/-! Concrete fixtures used by counterexamples and witnesses. -/

/-- A filesystem holding a single directory `/d` with permission bits `755`
(`st_mode = 0o040755`). -/
def fsDir : FS :=
  fun q => if q = .utf8 "/d" then some ⟨0o040755⟩ else none

/-- A filesystem holding a single regular file `/f` with permission bits `644`
(`st_mode = 0o100644`). -/
def fsReg : FS :=
  fun q => if q = .utf8 "/f" then some ⟨0o100644⟩ else none

/-- The empty filesystem: every metadata query fails. -/
def fsEmpty : FS := fun _ => none

/-! Theorems settling the claims. -/

/-- C3, counterexample: on the non-UTF-8 path `[0xF8]` whose metadata query
fails, `plan` does not return `false` — the error branch's
`to_str().unwrap()` panics (modelled as `none`), refuting the claim for
every path. -/
theorem plan_error_branch_panics_cex :
    FilePermissions.plan ⟨.nonUtf8 [0xF8], 0o600⟩ fsEmpty = none :=
  rfl

/-- C3, amended: on unix, for every valid-UTF-8 path, whenever the metadata
query fails (the filesystem yields `none` for it — missing path, permission
denied, I/O error), `plan` returns `false` instead of propagating an error;
in particular `plan` on a nonexistent UTF-8 path returns `false`. -/
theorem plan_false_on_metadata_failure (a : FilePermissions) (fs : FS) (s : String)
    (h : fs a.path = none) (hs : a.path.toStr = some s) :
    a.plan fs = some (false, fs) := by
  unfold FilePermissions.plan
  rw [h, hs]

/-- Witness for the amended C3: `plan` on a UTF-8 path absent from the empty
filesystem returns `false`. -/
theorem plan_false_on_metadata_failure_witness :
    FilePermissions.plan ⟨.utf8 "/missing", 0o644⟩ fsEmpty = some (false, fsEmpty) :=
  plan_false_on_metadata_failure ⟨.utf8 "/missing", 0o644⟩ fsEmpty "/missing" rfl rfl

/-- C5: on non-unix platforms, for every atom and filesystem, `plan` returns
`false`, and `execute` and `revert` return `Ok` — all three leaving the
filesystem exactly as it was (no filesystem operation is performed). -/
theorem notUnix_impl_inert (a : FilePermissions) (fs : FS) :
    a.planNotUnix fs = (false, fs) ∧
    a.executeNotUnix fs = .ok fs ∧
    a.revertNotUnix fs = .ok fs :=
  ⟨rfl, rfl, rfl⟩

/-- C6, counterexample: repeated `plan` calls on the non-UTF-8 path `[0xC0]`
with failing metadata do not return the same boolean every time — already the
first call panics in the error-log branch (modelled as `none`) instead of
returning a boolean. -/
theorem plan_repeat_panics_cex :
    FilePermissions.planRepeat ⟨.nonUtf8 [0xC0], 0o755⟩ fsEmpty 1 = none :=
  rfl

/-- C6, amended: whenever `plan` returns a result `r` (it panics only on a
non-UTF-8 path with failing metadata), it mutates nothing — the filesystem in
`r` is the one it was given, and the atom's fields are immutable by
construction, `plan` taking the atom by value — and any chain of repeated
`plan` calls without an intervening `execute` returns that same boolean and
state. -/
theorem plan_readonly_and_idempotent (a : FilePermissions) (fs : FS)
    (r : Bool × FS) (n : Nat) (h : a.plan fs = some r) :
    r.2 = fs ∧ a.planRepeat fs n = some r := by
  have hro : r.2 = fs := by
    unfold FilePermissions.plan at h
    cases hfs : fs a.path with
    | none =>
        rw [hfs] at h
        cases hstr : a.path.toStr with
        | none => rw [hstr] at h; exact absurd h (by simp)
        | some s =>
            rw [hstr] at h
            simp only [Option.some.injEq] at h
            rw [← h]
    | some metadata =>
        rw [hfs] at h
        simp only [Option.some.injEq] at h
        rw [← h]
  refine ⟨hro, ?_⟩
  induction n with
  | zero => exact h
  | succ k ih =>
      show (match a.planRepeat fs k with
            | none => none
            | some r2 => a.plan r2.2) = some r
      rw [ih]
      show a.plan r.2 = some r
      rw [hro]
      exact h

/-- Witness for the amended C6: three `plan` calls in a row on a UTF-8 path
with failing metadata all return `false` and leave the filesystem as it
was. -/
theorem plan_readonly_and_idempotent_witness :
    ((false, fsEmpty) : Bool × FS).2 = fsEmpty ∧
    FilePermissions.planRepeat ⟨.utf8 "/idem", 0o644⟩ fsEmpty 2 = some (false, fsEmpty) :=
  plan_readonly_and_idempotent ⟨.utf8 "/idem", 0o644⟩ fsEmpty (false, fsEmpty) 2 rfl

/-- C8 (spec-modelled): on the active unix variant no prior permission value
is ever captured (the atom stores only `path` and `mode`), and `revert` fails
closed: it returns an error rather than silently doing nothing. -/
theorem revertUnix_fails_closed (a : FilePermissions) (fs : FS) :
    a.revertUnix fs = .error .revertUnsupported :=
  rfl

/-- C9, counterexample: on the non-UTF-8 path `[0xFE]` the display capability
produces no text at all — `self.path.to_str().unwrap()` panics (modelled as
`none`) — refuting the claim for every atom. -/
theorem display_non_utf8_no_text_cex :
    FilePermissions.display ⟨.nonUtf8 [0xFE], 0o755⟩ = none :=
  rfl

/-- C9, amended: for every atom whose path has a textual form `s` (valid
UTF-8), the display capability produces exactly
`"The permissions on " ++ s ++ " need to be set to " ++ toString a.mode`,
the mode rendered as the numeral the caller stored in the `mode` field; in
the embedding `display` is a pure function of the atom, so producing the text
has no side effects. -/
theorem display_text (a : FilePermissions) (s : String)
    (h : a.path.toStr = some s) :
    a.display =
      some ("The permissions on " ++ s ++ " need to be set to " ++ toString a.mode) := by
  unfold FilePermissions.display
  rw [h]

/-- Witness for the amended C9: the atom for `/etc/conf` with mode `644`
displays the expected sentence. -/
theorem display_text_witness :
    FilePermissions.display ⟨.utf8 "/etc/conf", 644⟩ =
      some ("The permissions on " ++ "/etc/conf" ++ " need to be set to " ++ toString 644) :=
  display_text ⟨.utf8 "/etc/conf", 644⟩ "/etc/conf" rfl

/-- C1, counterexample: the claim "plan returns true iff the permission bits
differ, type bits stripped from both sides" fails for the directory `/d`
with `st_mode = 0o040755` and desired mode `0o755`: both sides have
permission bits `0o755` (`planPermBitsOnly` is `false`), the metadata query
succeeds, yet `plan` returns `true`. -/
theorem plan_not_perm_bits_cex :
    (FilePermissions.plan ⟨.utf8 "/d", 0o755⟩ fsDir).map Prod.fst = some true ∧
    planPermBitsOnly ⟨.utf8 "/d", 0o755⟩ ⟨0o040755⟩ = false ∧
    fsDir (OsPath.utf8 "/d") = some ⟨0o040755⟩ := by
  decide

/-- C1, amended: on unix, for every path whose metadata can be read, `plan`
returns (without panicking, the state untouched) the boolean that is true iff
the full synthesized mode `(0o100000 + mode)` (reduced as a `u32`) differs
from the full on-disk `st_mode`, type bits included on both sides;
`from_mode`/`.mode()` round-trips the value unchanged and strips nothing. -/
theorem plan_compares_full_mode (a : FilePermissions) (fs : FS) (m : FileMeta)
    (h : fs a.path = some m) :
    a.plan fs = some (decide ((0o100000 + a.mode) % 2 ^ 32 ≠ m.mode), fs) := by
  unfold FilePermissions.plan
  rw [h]
  simp [fromModeMode]

/-- Witness for the amended C1: a regular file `/f` with `st_mode = 0o100644`
and desired mode `0o640`. -/
theorem plan_compares_full_mode_witness :
    FilePermissions.plan ⟨.utf8 "/f", 0o640⟩ fsReg =
      some (decide ((0o100000 + 0o640) % 2 ^ 32 ≠ (0o100644 : Nat)), fsReg) :=
  plan_compares_full_mode ⟨.utf8 "/f", 0o640⟩ fsReg ⟨0o100644⟩ (by decide)

/-- C2, counterexample: for the directory `/d` (`st_mode = 0o040755`) and
desired mode `0o755 ≤ 0o7777`, `execute` returns `Ok`, no external actor
mutates the path, yet the immediately following `plan` returns `true`, not
`false`. -/
theorem execute_then_plan_dir_cex :
    (match FilePermissions.execute ⟨.utf8 "/d", 0o755⟩ fsDir with
     | .ok fs2 => (FilePermissions.plan ⟨.utf8 "/d", 0o755⟩ fs2).map Prod.fst
     | .error _ => none) = some true := by
  decide

/-- C2, amended: on unix, for every path holding a regular file (on-disk
file-type bits `0o100000`) and every desired mode in `0..=0o7777`, if
`execute` returns `Ok` and nothing else mutates the path, an immediately
following `plan` returns `false`. -/
theorem execute_then_plan_false_on_regular_file (a : FilePermissions)
    (fs fs2 : FS) (m : FileMeta)
    (hmode : a.mode ≤ 0o7777)
    (hmeta : fs a.path = some m)
    (hreg : m.mode - m.mode % 4096 = 0o100000)
    (hexec : a.execute fs = .ok fs2) :
    (a.plan fs2) = some (false, fs2) := by
  have hset : setPermissions fs a.path a.mode
      = .ok (fs.update a.path ⟨m.mode - m.mode % 4096 + a.mode % 4096⟩) := by
    unfold setPermissions
    rw [hmeta]
  unfold FilePermissions.execute at hexec
  rw [hset] at hexec
  simp only [Except.ok.injEq] at hexec
  subst hexec
  have hval : (fs.update a.path ⟨m.mode - m.mode % 4096 + a.mode % 4096⟩) a.path
      = some ⟨m.mode - m.mode % 4096 + a.mode % 4096⟩ := by
    unfold FS.update
    simp
  unfold FilePermissions.plan
  rw [hval]
  have h32 : (2 : Nat) ^ 32 = 4294967296 := by norm_num
  simp only [fromModeMode, h32, Option.some.injEq, Prod.mk.injEq, and_true,
    decide_eq_false_iff_not, ne_eq, not_not]
  omega

/-- Witness for the amended C2: `execute` with mode `0o640` on the regular
file `/f` (`st_mode = 0o100644`) succeeds, and `plan` on the resulting
filesystem returns `false`. -/
theorem execute_then_plan_false_on_regular_file_witness :
    FilePermissions.plan ⟨.utf8 "/f", 0o640⟩
      (FS.update fsReg (.utf8 "/f") ⟨0o100640⟩) =
      some (false, FS.update fsReg (.utf8 "/f") ⟨0o100640⟩) :=
  execute_then_plan_false_on_regular_file ⟨.utf8 "/f", 0o640⟩ fsReg
    (FS.update fsReg (.utf8 "/f") ⟨0o100640⟩) ⟨0o100644⟩
    (by decide) rfl (by decide) rfl

/-- C4: on unix, `execute` propagates any failure of the underlying
`set_permissions` call unchanged — it returns the very error the call
produced, never `Ok`; in particular on a path whose metadata cannot be
reached it returns an error. -/
theorem execute_propagates_failure (a : FilePermissions) (fs : FS) :
    (∀ e, setPermissions fs a.path a.mode = .error e → a.execute fs = .error e) ∧
    (fs a.path = none → a.execute fs = .error .notFound) := by
  constructor
  · intro e he
    unfold FilePermissions.execute
    rw [he]
  · intro h
    unfold FilePermissions.execute setPermissions
    rw [h]

/-- Witness for C4: `execute` on a path absent from the empty filesystem
returns an error. -/
theorem execute_propagates_failure_witness :
    FilePermissions.execute ⟨.utf8 "/missing2", 0o644⟩ fsEmpty = .error .notFound :=
  (execute_propagates_failure ⟨.utf8 "/missing2", 0o644⟩ fsEmpty).2 rfl

/-- C7: the display operation panics on a path that is not valid UTF-8 —
`self.path.to_str().unwrap()` unwraps `None` — modelled here as `display`
returning `none` (no ordinary result) on the non-UTF-8 path `[0xFF]`.  This
contradicts the claim that no operation of the atom panics. -/
theorem display_panics_on_non_utf8_path :
    FilePermissions.display ⟨.nonUtf8 [0xFF], 0o644⟩ = none :=
  rfl

/-- C10: on unix, for every readable path whose on-disk file-type bits are
not the regular-file constant `0o100000`, `plan` returns `true` even when
the on-disk permission bits exactly equal the desired mode (the caller's
mode being within `0..=0o7777`). -/
theorem plan_true_on_non_regular_file (a : FilePermissions) (fs : FS) (m : FileMeta)
    (hmeta : fs a.path = some m)
    (hmode : a.mode ≤ 0o7777)
    (htype : m.mode - m.mode % 4096 ≠ 0o100000)
    (hperm : m.mode % 4096 = a.mode) :
    a.plan fs = some (true, fs) := by
  unfold FilePermissions.plan
  rw [hmeta]
  have h32 : (2 : Nat) ^ 32 = 4294967296 := by norm_num
  simp only [fromModeMode, h32, Option.some.injEq, Prod.mk.injEq, and_true,
    decide_eq_true_eq, ne_eq]
  omega

/-- Witness for C10: the directory `/d` with `st_mode = 0o040755` and desired
mode `0o755` — permission bits equal, yet `plan` reports drift. -/
theorem plan_true_on_non_regular_file_witness :
    FilePermissions.plan ⟨.utf8 "/d", 0o755⟩ fsDir = some (true, fsDir) :=
  plan_true_on_non_regular_file ⟨.utf8 "/d", 0o755⟩ fsDir ⟨0o040755⟩
    (by decide) (by decide) (by decide) (by decide)

end Comtrya
